import Mathlib

/-!
Shallow embedding of `custom_components/bedrock_conversation/__init__.py`
(the AWS Bedrock conversation-agent integration): the service-call tool
handler `HassServiceTool.async_call` and the API-registration step of
`async_setup_entry`, together with proofs of the specified properties.

The static allow-lists `SERVICE_TOOL_ALLOWED_DOMAINS` and
`SERVICE_TOOL_ALLOWED_SERVICES` and the identifier `HOME_LLM_API_ID` are
imported by the source from `.const`, a module not present in the given
files; they are treated as parameters (`allowedDomains`, `allowedServices`,
`api_id`).
-/

namespace Bedrock

/-- Values carried in the tool-argument mapping (Python objects restricted
to the shapes the handler manipulates: strings, integers, booleans). -/
inductive JValue where
  | str (s : String)
  | int (n : Int)
  | bool (b : Bool)
deriving DecidableEq

/-- Python truthiness of a value: empty string, zero and False are falsy. -/
def JValue.truthy : JValue → Bool
  | JValue.str s => decide (s ≠ "")
  | JValue.int n => decide (n ≠ 0)
  | JValue.bool b => b

/-- Truthiness of `dict.get`'s result: `None` (absent key) is falsy. -/
def truthyOpt : Option JValue → Bool
  | none => false
  | some v => v.truthy

/-- Python `str()` of a value, as used by f-string interpolation. -/
def pyStr : JValue → String
  | JValue.str s => s
  | JValue.int n => toString n
  | JValue.bool b => if b then "True" else "False"

/-- Python `dict.get(k)`: the value bound to `k`, or `None` when absent. -/
def dictGet (k : String) (d : List (String × JValue)) : Option JValue :=
  (d.find? (fun p => decide (p.1 = k))).map Prod.snd

/-- Python `d[k] = v` on an insertion-ordered dict: update in place when the
key exists, otherwise append the new binding at the end. -/
def dictSet (d : List (String × JValue)) (k : String) (v : JValue) : List (String × JValue) :=
  match d with
  | [] => [(k, v)]
  | (k', v') :: rest =>
    if k' = k then (k, v) :: rest else (k', v') :: dictSet rest k v

/-- Split a character list at the first occurrence of `c`: `some (a, b)`
with `l = a ++ c :: b` and `c ∉ a`, or `none` when `c` does not occur. -/
def splitFirst (c : Char) : List Char → Option (List Char × List Char)
  | [] => none
  | x :: xs =>
    if x = c then some ([], xs)
    else
      match splitFirst c xs with
      | none => none
      | some (a, b) => some (x :: a, b)

/-- Python `service.split(".", 1)` followed by the two-way unpacking on
line 95: `some (domain, service_name)` when `service` contains a dot
(split at the first dot only), `none` when the unpacking raises
`ValueError` because no dot is present. -/
def pySplitOnce (s : String) : Option (String × String) :=
  match splitFirst '.' s.data with
  | none => none
  | some (a, b) => some (String.mk a, String.mk b)

/-- Line 27: `ALLOWED_SERVICE_CALL_ARGUMENTS`, the whitelist of extra
service-call argument keys. -/
def ALLOWED_SERVICE_CALL_ARGUMENTS : List String :=
  ["brightness", "brightness_pct", "rgb_color", "temperature", "hvac_mode",
   "target_temp_high", "target_temp_low", "fan_mode", "preset_mode",
   "humidity", "position", "tilt_position", "volume_level",
   "media_content_id", "media_content_type", "value"]

/-- The host platform's constant `homeassistant.const.ATTR_ENTITY_ID`,
imported on line 4; its value on the host platform is "entity_id". -/
def ATTR_ENTITY_ID : String := "entity_id"

/-- Line 86: the missing-parameters error message. -/
def missingParamsMsg : String := "Missing required parameters: service and target_device"

/-- Line 97: the invalid-format error message. -/
def invalidFormatMsg (service : String) : String :=
  "Invalid service format: " ++ (service ++ ". Expected 'domain.service'")

/-- Line 106: the domain-not-allowed error message. -/
def domainNotAllowedMsg (domain : String) : String :=
  "Service domain '" ++ (domain ++ "' is not allowed")

/-- Line 115: the service-not-allowed error message. -/
def serviceNotAllowedMsg (service : String) : String :=
  "Service '" ++ (service ++ "' is not allowed")

/-- Line 147: the success message. -/
def successMsg (service target : String) : String :=
  "✅ Successfully called " ++ (service ++ (" on " ++ target))

/-- Line 161: the timeout error message. -/
def timeoutMsg (service : String) : String :=
  "Timeout calling service " ++ (service ++ " (took more than 5 seconds)")

/-- Line 171: the generic dispatch error message, wrapping the low-level
exception text. -/
def dispatchErrorMsg (service err : String) : String :=
  "Error calling service " ++ (service ++ (": " ++ err))

/-- The structured result dictionary returned by the handler: either
`{"result": "success", "service": ..., "target": ..., "message": ...}` or
`{"result": "error", "error": ...}`. -/
inductive CallResult where
  | success (service : String) (target : JValue) (message : String)
  | error (error : String)
deriving DecidableEq

/-- A Python exception escaping the handler uncaught (only an
`AttributeError` from calling `.split` on a non-string could). -/
inductive PyExn where
  | attributeError
deriving DecidableEq

/-- Outcome of the host bus accepting one enqueue request:
normal return or an exception carrying a message. -/
inductive EnqueueResult where
  | ok
  | raise (msg : String)
deriving DecidableEq

/-- Behaviour of the host's dispatch bus for the one `async_call` the
handler may issue: how many time units the enqueue takes (the
`asyncio.timeout(5.0)` guard fires when this exceeds 5) and what it
returns if allowed to finish. -/
structure DispatchBehavior where
  duration : Nat
  result : EnqueueResult
deriving DecidableEq

/-- One invocation of `hass.services.async_call(domain, service_name,
service_data, blocking=...)` on the host's dispatch bus. -/
structure DispatchCall where
  domain : String
  service : String
  data : List (String × JValue)
  blocking : Bool
deriving DecidableEq

/-- Lines 126-128: the whitelist-filtering loop, folding dict assignment
over the items of `tool_args` starting from dictionary `d`. -/
def applyArgs (tool_args : List (String × JValue)) (d : List (String × JValue)) :
    List (String × JValue) :=
  tool_args.foldl
    (fun acc p => if p.1 ∈ ALLOWED_SERVICE_CALL_ARGUMENTS then dictSet acc p.1 p.2 else acc) d

/-- Lines 122-128: `service_data = {ATTR_ENTITY_ID: target_device}` then
the whitelist-filtering loop over `tool_args.items()`. -/
def buildServiceData (tool_args : List (String × JValue)) (target : JValue) :
    List (String × JValue) :=
  applyArgs tool_args [(ATTR_ENTITY_ID, target)]

/-- Lines 132-179: the `try` block. The enqueue is awaited under
`asyncio.timeout(5.0)`; exceeding the bound is caught as
`asyncio.TimeoutError`, any other exception by the generic handler, and
normal return yields the success dictionary. In every case the bus was
invoked exactly once. -/
def dispatchStage (bus : DispatchBehavior) (service : String) (target : JValue)
    (call : DispatchCall) : Except PyExn CallResult × List DispatchCall :=
  if bus.duration > 5 then
    (Except.ok (CallResult.error (timeoutMsg service)), [call])
  else
    match bus.result with
    | EnqueueResult.ok =>
      (Except.ok (CallResult.success service target (successMsg service (pyStr target))), [call])
    | EnqueueResult.raise m =>
      (Except.ok (CallResult.error (dispatchErrorMsg service m)), [call])

/-- Lines 70-179: `HassServiceTool.async_call`. Returns the handler's
outcome (a structured result dictionary, or an uncaught Python exception)
together with the list of dispatch-bus invocations it performed. A
non-string truthy `service` value would make `service.split(".", 1)` raise
an uncaught `AttributeError`; the tool's declared parameter schema
(lines 59-64) types both fields as `str`. -/
def async_call (allowedDomains allowedServices : List String) (bus : DispatchBehavior)
    (tool_args : List (String × JValue)) : Except PyExn CallResult × List DispatchCall :=
  if !truthyOpt (dictGet "service" tool_args) || !truthyOpt (dictGet "target_device" tool_args) then
    (Except.ok (CallResult.error missingParamsMsg), [])
  else
    match dictGet "service" tool_args, dictGet "target_device" tool_args with
    | some (JValue.str service), some target =>
      (match pySplitOnce service with
       | none => (Except.ok (CallResult.error (invalidFormatMsg service)), [])
       | some (domain, service_name) =>
         if domain ∈ allowedDomains then
           if service ∈ allowedServices then
             dispatchStage bus service target
               (DispatchCall.mk domain service_name (buildServiceData tool_args target) false)
           else (Except.ok (CallResult.error (serviceNotAllowedMsg service)), [])
         else (Except.ok (CallResult.error (domainNotAllowedMsg domain)), []))
    | _, _ => (Except.error PyExn.attributeError, [])

/-- Lines 222-224 of `async_setup_entry`: query the host's registry of LLM
APIs for the fixed identifier and register only when absent. The host
registry is modelled as its list of API identifiers, which registration
appends to (spec section 6: "a registry of named APIs queried for existing
identifiers and appended to"). -/
def register_step (api_id : String) (registry : List String) : List String :=
  if api_id ∈ registry then registry else registry ++ [api_id]

/-- Concrete allow-lists and inputs used to instantiate the theorems. -/
def exampleAD : List String := ["light"]

/-- Concrete full-service allow-list used to instantiate the theorems. -/
def exampleAS : List String := ["light.turn_on"]

/-- Concrete tool-argument dictionary from the spec's section-8 example. -/
def exampleArgs : List (String × JValue) :=
  [("service", JValue.str "light.turn_on"), ("target_device", JValue.str "light.lamp"),
   ("brightness", JValue.int 120), ("unknown_key", JValue.str "x")]

/-- Concrete tool-argument dictionary with a multi-dot service string. -/
def exampleMultiDotArgs : List (String × JValue) :=
  [("service", JValue.str "a.b.c"), ("target_device", JValue.str "light.lamp")]

/-- Boolean test that `pat` occurs at the head of the second list. -/
def leadsWith : List Char → List Char → Bool
  | [], _ => true
  | _ :: _, [] => false
  | a :: as, b :: bs => decide (a = b) && leadsWith as bs

/-- Boolean test that `pat` occurs contiguously somewhere in the list. -/
def occursIn (pat : List Char) : List Char → Bool
  | [] => leadsWith pat []
  | b :: bs => leadsWith pat (b :: bs) || occursIn pat bs

/-- Substring test on strings, used to state the "message contains ..."
parts of the spec. -/
def strOccursIn (pat s : String) : Bool := occursIn pat.data s.data

/-!
Helper lemmas about the embedded operations.
-/

theorem splitFirst_eq_none_iff (c : Char) (l : List Char) :
    splitFirst c l = none ↔ c ∉ l := by
  induction l with
  | nil => simp [splitFirst]
  | cons x xs ih =>
    by_cases hx : x = c
    · subst hx
      simp [splitFirst]
    · simp only [splitFirst, if_neg hx]
      cases h : splitFirst c xs with
      | none =>
        simp only [List.mem_cons, not_or]
        constructor
        · intro _
          exact ⟨fun he => hx he.symm, (ih.mp h)⟩
        · intro _; trivial
      | some p =>
        obtain ⟨a, b⟩ := p
        simp only [List.mem_cons, not_or]
        constructor
        · intro hc; cases hc
        · intro ⟨h1, h2⟩
          exact absurd h (fun hh => h2 (by
            by_contra hmem
            exact absurd (ih.mpr hmem) (by simp [hh])))

theorem splitFirst_some (c : Char) :
    ∀ (l a b : List Char), splitFirst c l = some (a, b) →
      a ++ c :: b = l ∧ c ∉ a := by
  intro l
  induction l with
  | nil => intro a b h; simp [splitFirst] at h
  | cons x xs ih =>
    intro a b h
    by_cases hx : x = c
    · subst hx
      simp [splitFirst] at h
      obtain ⟨ha, hb⟩ := h
      subst ha; subst hb
      simp
    · simp only [splitFirst, if_neg hx] at h
      cases hs : splitFirst c xs with
      | none => rw [hs] at h; simp at h
      | some p =>
        obtain ⟨a', b'⟩ := p
        rw [hs] at h
        simp at h
        obtain ⟨ha, hb⟩ := h
        obtain ⟨hl, hna⟩ := ih a' b' hs
        subst ha; subst hb
        constructor
        · simp [← hl]
        · simp only [List.mem_cons, not_or]
          exact ⟨fun he => hx he.symm, hna⟩

theorem splitFirst_isSome_of_mem (c : Char) (l : List Char) (h : c ∈ l) :
    ∃ a b, splitFirst c l = some (a, b) := by
  cases hs : splitFirst c l with
  | none => exact absurd h ((splitFirst_eq_none_iff c l).mp hs)
  | some p => exact ⟨p.1, p.2, by simp⟩

theorem dictGet_dictSet_ne (k k' : String) (v : JValue) (d : List (String × JValue))
    (h : k ≠ k') : dictGet k' (dictSet d k v) = dictGet k' d := by
  induction d with
  | nil => simp [dictGet, dictSet, List.find?, h]
  | cons p rest ih =>
    obtain ⟨k0, v0⟩ := p
    by_cases h0 : k0 = k
    · subst h0
      simp [dictSet, dictGet, List.find?, h]
    · simp only [dictSet, if_neg h0]
      by_cases h1 : k0 = k'
      · subst h1
        simp [dictGet, List.find?]
      · simp only [dictGet, List.find?] at ih ⊢
        simp [h1, ih]

theorem dictSet_of_not_mem (k : String) (v : JValue) (d : List (String × JValue))
    (h : k ∉ d.map Prod.fst) : dictSet d k v = d ++ [(k, v)] := by
  induction d with
  | nil => simp [dictSet]
  | cons p rest ih =>
    obtain ⟨k0, v0⟩ := p
    simp only [List.map_cons, List.mem_cons, not_or] at h
    simp only [dictSet, if_neg (fun he : k0 = k => h.1 he.symm)]
    simp [ih h.2]

theorem applyArgs_dictGet (k : String) (hk : k ∉ ALLOWED_SERVICE_CALL_ARGUMENTS) :
    ∀ (args d : List (String × JValue)), dictGet k (applyArgs args d) = dictGet k d := by
  intro args
  induction args with
  | nil => intro d; simp [applyArgs]
  | cons p rest ih =>
    intro d
    obtain ⟨k0, v0⟩ := p
    by_cases h0 : k0 ∈ ALLOWED_SERVICE_CALL_ARGUMENTS
    · simp only [applyArgs, List.foldl_cons, if_pos h0]
      have := ih (dictSet d k0 v0)
      simp only [applyArgs] at this
      rw [this, dictGet_dictSet_ne k0 k v0 d (fun he => hk (he ▸ h0))]
    · simp only [applyArgs, List.foldl_cons, if_neg h0]
      exact ih d

theorem applyArgs_eq_append_filter :
    ∀ (args d : List (String × JValue)),
      (args.map Prod.fst).Nodup →
      (∀ p ∈ args, p.1 ∈ ALLOWED_SERVICE_CALL_ARGUMENTS → p.1 ∉ d.map Prod.fst) →
      applyArgs args d = d ++ args.filter (fun p => decide (p.1 ∈ ALLOWED_SERVICE_CALL_ARGUMENTS)) := by
  intro args
  induction args with
  | nil => intro d _ _; simp [applyArgs]
  | cons p rest ih =>
    intro d hnd hdisj
    obtain ⟨k0, v0⟩ := p
    simp only [List.map_cons, List.nodup_cons] at hnd
    by_cases h0 : k0 ∈ ALLOWED_SERVICE_CALL_ARGUMENTS
    · simp only [applyArgs, List.foldl_cons, if_pos h0]
      have hset : dictSet d k0 v0 = d ++ [(k0, v0)] :=
        dictSet_of_not_mem k0 v0 d (hdisj (k0, v0) (by simp) h0)
      have hrest : applyArgs rest (d ++ [(k0, v0)]) =
          (d ++ [(k0, v0)]) ++ rest.filter (fun p => decide (p.1 ∈ ALLOWED_SERVICE_CALL_ARGUMENTS)) := by
        apply ih _ hnd.2
        intro q hq hql
        simp only [List.map_append, List.mem_append, List.map_cons, not_or]
        constructor
        · exact hdisj q (by simp [hq]) hql
        · simp only [List.map_nil, List.mem_singleton]
          intro he
          exact hnd.1 (he ▸ (List.mem_map_of_mem Prod.fst hq))
      simp only [applyArgs] at hrest ⊢
      rw [hset, hrest]
      simp [h0]
    · simp only [applyArgs, List.foldl_cons, if_neg h0]
      have := ih d hnd.2 (fun q hq hql => hdisj q (by simp [hq]) hql)
      simp only [applyArgs] at this
      rw [this]
      simp [h0]

theorem serviceMsg_ne_domainMsg (s d : String) :
    serviceNotAllowedMsg s ≠ domainNotAllowedMsg d := by
  intro h
  have h2 := congrArg (fun t : String => t.data[8]?) h
  simp only [serviceNotAllowedMsg, domainNotAllowedMsg, String.data_append] at h2
  rw [List.getElem?_append_left (by decide), List.getElem?_append_left (by decide)] at h2
  exact absurd h2 (by decide)

theorem leadsWith_refl : ∀ (l : List Char), leadsWith l l = true := by
  intro l
  induction l with
  | nil => rfl
  | cons x xs ih => simp [leadsWith, ih]

theorem leadsWith_append : ∀ (p l r : List Char), leadsWith p l = true →
    leadsWith p (l ++ r) = true := by
  intro p
  induction p with
  | nil => intro l r _; rfl
  | cons a as ih =>
    intro l r h
    cases l with
    | nil => simp [leadsWith] at h
    | cons b bs =>
      simp only [leadsWith, Bool.and_eq_true, decide_eq_true_eq] at h
      simp only [List.cons_append, leadsWith, Bool.and_eq_true, decide_eq_true_eq]
      exact ⟨h.1, ih bs r h.2⟩

theorem occursIn_of_leadsWith (p l : List Char) (h : leadsWith p l = true) :
    occursIn p l = true := by
  cases l with
  | nil => exact h
  | cons b bs => simp [occursIn, h]

theorem occursIn_append_right : ∀ (l p : List Char), occursIn p (l ++ p) = true := by
  intro l
  induction l with
  | nil =>
    intro p
    cases p with
    | nil => rfl
    | cons b bs =>
      simp only [List.nil_append]
      exact occursIn_of_leadsWith _ _ (leadsWith_refl (b :: bs))
  | cons x xs ih =>
    intro p
    simp only [List.cons_append, occursIn, Bool.or_eq_true]
    exact Or.inr (ih p)

theorem strOccursIn_suffix (pre m : String) : strOccursIn m (pre ++ m) = true := by
  simp only [strOccursIn, String.data_append]
  exact occursIn_append_right pre.data m.data

theorem occursIn_leadsWith_append (p l r : List Char) (h : leadsWith p l = true)
    (hl : l ≠ []) : occursIn p (l ++ r) = true := by
  cases l with
  | nil => exact absurd rfl hl
  | cons b bs =>
    simp only [List.cons_append, occursIn, Bool.or_eq_true]
    exact Or.inl (leadsWith_append p (b :: bs) r h)


theorem dispatchStage_snd (bus : DispatchBehavior) (s : String) (tv : JValue)
    (call : DispatchCall) : (dispatchStage bus s tv call).2 = [call] := by
  unfold dispatchStage
  by_cases h : bus.duration > 5
  · simp [h]
  · cases hr : bus.result with
    | ok => simp [h, hr]
    | raise m => simp [h, hr]

theorem dispatchStage_fst_ok (bus : DispatchBehavior) (s : String) (tv : JValue)
    (call : DispatchCall) : ∃ r, (dispatchStage bus s tv call).1 = Except.ok r := by
  by_cases h : bus.duration > 5
  · exact ⟨CallResult.error (timeoutMsg s), by simp [dispatchStage, h]⟩
  · cases hr : bus.result with
    | ok =>
      exact ⟨CallResult.success s tv (successMsg s (pyStr tv)), by simp [dispatchStage, h, hr]⟩
    | raise m => exact ⟨CallResult.error (dispatchErrorMsg s m), by simp [dispatchStage, h, hr]⟩

theorem async_call_valid (AD AS : List String) (bus : DispatchBehavior)
    (args : List (String × JValue)) (s d rest : String) (tv : JValue)
    (hs : dictGet "service" args = some (JValue.str s))
    (ht : dictGet "target_device" args = some tv)
    (hns : s ≠ "") (htv : tv.truthy = true)
    (hsplit : pySplitOnce s = some (d, rest))
    (hd : d ∈ AD) (hsv : s ∈ AS) :
    async_call AD AS bus args =
      dispatchStage bus s tv (DispatchCall.mk d rest (buildServiceData args tv) false) := by
  unfold async_call
  rw [hs, ht]
  have h1 : truthyOpt (some (JValue.str s)) = true := by
    simp [truthyOpt, JValue.truthy, hns]
  have h2 : truthyOpt (some tv) = true := htv
  have hcond : (!truthyOpt (some (JValue.str s)) || !truthyOpt (some tv)) = false := by
    rw [h1, h2]; rfl
  rw [hcond]
  simp only [Bool.false_eq_true, if_false]
  rw [hsplit]
  simp [hd, hsv]

theorem async_call_missing (AD AS : List String) (bus : DispatchBehavior)
    (args : List (String × JValue))
    (h : truthyOpt (dictGet "service" args) = false ∨
         truthyOpt (dictGet "target_device" args) = false) :
    async_call AD AS bus args = (Except.ok (CallResult.error missingParamsMsg), []) := by
  unfold async_call
  rcases h with h | h <;> simp [h]

theorem async_call_invalid_format (AD AS : List String) (bus : DispatchBehavior)
    (args : List (String × JValue)) (s : String) (tv : JValue)
    (hs : dictGet "service" args = some (JValue.str s))
    (ht : dictGet "target_device" args = some tv)
    (hns : s ≠ "") (htv : tv.truthy = true)
    (hsplit : pySplitOnce s = none) :
    async_call AD AS bus args = (Except.ok (CallResult.error (invalidFormatMsg s)), []) := by
  unfold async_call
  rw [hs, ht]
  have h1 : truthyOpt (some (JValue.str s)) = true := by
    simp [truthyOpt, JValue.truthy, hns]
  have h2 : truthyOpt (some tv) = true := htv
  have hcond : (!truthyOpt (some (JValue.str s)) || !truthyOpt (some tv)) = false := by
    rw [h1, h2]; rfl
  rw [hcond]
  simp only [Bool.false_eq_true, if_false]
  rw [hsplit]

theorem async_call_domain_denied (AD AS : List String) (bus : DispatchBehavior)
    (args : List (String × JValue)) (s d rest : String) (tv : JValue)
    (hs : dictGet "service" args = some (JValue.str s))
    (ht : dictGet "target_device" args = some tv)
    (hns : s ≠ "") (htv : tv.truthy = true)
    (hsplit : pySplitOnce s = some (d, rest))
    (hd : d ∉ AD) :
    async_call AD AS bus args = (Except.ok (CallResult.error (domainNotAllowedMsg d)), []) := by
  unfold async_call
  rw [hs, ht]
  have h1 : truthyOpt (some (JValue.str s)) = true := by
    simp [truthyOpt, JValue.truthy, hns]
  have h2 : truthyOpt (some tv) = true := htv
  have hcond : (!truthyOpt (some (JValue.str s)) || !truthyOpt (some tv)) = false := by
    rw [h1, h2]; rfl
  rw [hcond]
  simp only [Bool.false_eq_true, if_false]
  rw [hsplit]
  simp [hd]

theorem async_call_service_denied (AD AS : List String) (bus : DispatchBehavior)
    (args : List (String × JValue)) (s d rest : String) (tv : JValue)
    (hs : dictGet "service" args = some (JValue.str s))
    (ht : dictGet "target_device" args = some tv)
    (hns : s ≠ "") (htv : tv.truthy = true)
    (hsplit : pySplitOnce s = some (d, rest))
    (hd : d ∈ AD) (hsv : s ∉ AS) :
    async_call AD AS bus args = (Except.ok (CallResult.error (serviceNotAllowedMsg s)), []) := by
  unfold async_call
  rw [hs, ht]
  have h1 : truthyOpt (some (JValue.str s)) = true := by
    simp [truthyOpt, JValue.truthy, hns]
  have h2 : truthyOpt (some tv) = true := htv
  have hcond : (!truthyOpt (some (JValue.str s)) || !truthyOpt (some tv)) = false := by
    rw [h1, h2]; rfl
  rw [hcond]
  simp only [Bool.false_eq_true, if_false]
  rw [hsplit]
  simp [hd, hsv]

theorem async_call_nonstr (AD AS : List String) (bus : DispatchBehavior)
    (args : List (String × JValue)) (v tv : JValue)
    (hs : dictGet "service" args = some v) (hv : ∀ t, v ≠ JValue.str t)
    (hvt : v.truthy = true)
    (ht : dictGet "target_device" args = some tv) (htv : tv.truthy = true) :
    async_call AD AS bus args = (Except.error PyExn.attributeError, []) := by
  unfold async_call
  rw [hs, ht]
  have hcond : (!truthyOpt (some v) || !truthyOpt (some tv)) = false := by
    rw [show truthyOpt (some v) = true from hvt, show truthyOpt (some tv) = true from htv]
    rfl
  rw [hcond]
  simp only [Bool.false_eq_true, if_false]
  cases v with
  | str t => exact absurd rfl (hv t)
  | int n => rfl
  | bool b => rfl

theorem async_call_shape (AD AS : List String) (bus : DispatchBehavior)
    (args : List (String × JValue)) :
    (∃ msg, async_call AD AS bus args = (Except.ok (CallResult.error msg), []))
    ∨ (∃ s d rest tv,
        dictGet "service" args = some (JValue.str s) ∧
        dictGet "target_device" args = some tv ∧
        pySplitOnce s = some (d, rest) ∧ d ∈ AD ∧ s ∈ AS ∧
        async_call AD AS bus args =
          dispatchStage bus s tv (DispatchCall.mk d rest (buildServiceData args tv) false))
    ∨ (∃ v, dictGet "service" args = some v ∧ (∀ t, v ≠ JValue.str t) ∧
        async_call AD AS bus args = (Except.error PyExn.attributeError, [])) := by
  by_cases hsv : truthyOpt (dictGet "service" args) = true
  case neg =>
    exact Or.inl ⟨missingParamsMsg,
      async_call_missing AD AS bus args (Or.inl (Bool.eq_false_iff.mpr hsv))⟩
  by_cases htvb : truthyOpt (dictGet "target_device" args) = true
  case neg =>
    exact Or.inl ⟨missingParamsMsg,
      async_call_missing AD AS bus args (Or.inr (Bool.eq_false_iff.mpr htvb))⟩
  cases hso : dictGet "service" args with
  | none => rw [hso] at hsv; exact absurd hsv (by simp [truthyOpt])
  | some v =>
    cases hto : dictGet "target_device" args with
    | none => rw [hto] at htvb; exact absurd htvb (by simp [truthyOpt])
    | some tv =>
      rw [hso] at hsv
      rw [hto] at htvb
      cases v with
      | int n =>
        refine Or.inr (Or.inr ⟨JValue.int n, rfl, ?_, ?_⟩)
        · intro t h; cases h
        · refine async_call_nonstr AD AS bus args (JValue.int n) tv hso ?_ hsv hto htvb
          intro t h; cases h
      | bool b =>
        refine Or.inr (Or.inr ⟨JValue.bool b, rfl, ?_, ?_⟩)
        · intro t h; cases h
        · refine async_call_nonstr AD AS bus args (JValue.bool b) tv hso ?_ hsv hto htvb
          intro t h; cases h
      | str s =>
        have hns : s ≠ "" := by
          intro he
          subst he
          simp [truthyOpt, JValue.truthy] at hsv
        cases hsp : pySplitOnce s with
        | none =>
          exact Or.inl ⟨invalidFormatMsg s,
            async_call_invalid_format AD AS bus args s tv hso hto hns htvb hsp⟩
        | some p =>
          obtain ⟨d, rest⟩ := p
          by_cases hd : d ∈ AD
          · by_cases hss : s ∈ AS
            · exact Or.inr (Or.inl ⟨s, d, rest, tv, rfl, rfl, hsp, hd, hss,
                async_call_valid AD AS bus args s d rest tv hso hto hns htvb hsp hd hss⟩)
            · exact Or.inl ⟨serviceNotAllowedMsg s,
                async_call_service_denied AD AS bus args s d rest tv hso hto hns htvb hsp hd hss⟩
          · exact Or.inl ⟨domainNotAllowedMsg d,
              async_call_domain_denied AD AS bus args s d rest tv hso hto hns htvb hsp hd⟩

/-!
Claim theorems.
-/

/-- C1: for every request handled by the dispatcher, the host dispatch bus
is invoked only if the substring of `service` before the first '.' is a
member of the allowed domains and the whole `service` string is a member
of the allowed services; no input reaches the dispatch call while either
check fails. -/
theorem C1_dispatch_only_when_allowed (AD AS : List String) (bus : DispatchBehavior)
    (args : List (String × JValue)) (c : DispatchCall)
    (h : c ∈ (async_call AD AS bus args).2) :
    ∃ s d rest, dictGet "service" args = some (JValue.str s) ∧
      pySplitOnce s = some (d, rest) ∧ d ∈ AD ∧ s ∈ AS := by
  rcases async_call_shape AD AS bus args with ⟨msg, he⟩ |
    ⟨s, d, rest, tv, h1, h2, h3, h4, h5, he⟩ | ⟨v, h1, h2, he⟩
  · rw [he] at h; simp at h
  · exact ⟨s, d, rest, h1, h3, h4, h5⟩
  · rw [he] at h; simp at h

/-- Witness for C1 at the concrete example request. -/
theorem C1_witness :
    (DispatchCall.mk "light" "turn_on"
        [("entity_id", JValue.str "light.lamp"), ("brightness", JValue.int 120)] false)
      ∈ (async_call exampleAD exampleAS (DispatchBehavior.mk 0 EnqueueResult.ok) exampleArgs).2
    ∧ ∃ s d rest, dictGet "service" exampleArgs = some (JValue.str s) ∧
        pySplitOnce s = some (d, rest) ∧ d ∈ exampleAD ∧ s ∈ exampleAS := by
  constructor
  · decide
  · exact C1_dispatch_only_when_allowed exampleAD exampleAS
      (DispatchBehavior.mk 0 EnqueueResult.ok) exampleArgs
      (DispatchCall.mk "light" "turn_on"
        [("entity_id", JValue.str "light.lamp"), ("brightness", JValue.int 120)] false)
      (by decide)

/-- C2: for every schema-conforming input (the tool's parameter schema
types `service` as `str`), the handler returns a structured result and no
exception propagates to the caller. -/
theorem C2_never_raises (AD AS : List String) (bus : DispatchBehavior)
    (args : List (String × JValue))
    (hschema : ∀ v, dictGet "service" args = some v → ∃ t, v = JValue.str t) :
    ∃ r, (async_call AD AS bus args).1 = Except.ok r := by
  rcases async_call_shape AD AS bus args with ⟨msg, he⟩ |
    ⟨s, d, rest, tv, h1, h2, h3, h4, h5, he⟩ | ⟨v, h1, h2, he⟩
  · exact ⟨CallResult.error msg, by rw [he]⟩
  · rw [he]
    exact dispatchStage_fst_ok bus s tv _
  · obtain ⟨t, ht⟩ := hschema v h1
    exact absurd ht (h2 t)

/-- Witness for C2 at the concrete example request. -/
theorem C2_witness :
    (∀ v, dictGet "service" exampleArgs = some v → ∃ t, v = JValue.str t)
    ∧ ∃ r, (async_call exampleAD exampleAS (DispatchBehavior.mk 0 EnqueueResult.ok)
        exampleArgs).1 = Except.ok r := by
  have hschema : ∀ v, dictGet "service" exampleArgs = some v → ∃ t, v = JValue.str t := by
    intro v h
    rw [show dictGet "service" exampleArgs = some (JValue.str "light.turn_on") from rfl] at h
    cases h
    exact ⟨"light.turn_on", rfl⟩
  exact ⟨hschema, C2_never_raises exampleAD exampleAS
    (DispatchBehavior.mk 0 EnqueueResult.ok) exampleArgs hschema⟩

/-- C3: with `service` and `target_device` present and truthy, a `service`
without a dot yields the invalid-format error and no dispatch, while any
`service` containing a dot is split at the first dot only (so multiple
dots pass the format check). -/
theorem C3_format_check (AD AS : List String) (bus : DispatchBehavior)
    (args : List (String × JValue)) (s : String) (tv : JValue)
    (hs : dictGet "service" args = some (JValue.str s))
    (ht : dictGet "target_device" args = some tv)
    (hns : s ≠ "") (htv : tv.truthy = true) :
    (('.' ∉ s.data) →
      async_call AD AS bus args = (Except.ok (CallResult.error (invalidFormatMsg s)), []))
    ∧ ('.' ∈ s.data →
      ∃ d rest, pySplitOnce s = some (d, rest) ∧
        d.data ++ '.' :: rest.data = s.data ∧ '.' ∉ d.data) := by
  constructor
  · intro hnd
    apply async_call_invalid_format AD AS bus args s tv hs ht hns htv
    unfold pySplitOnce
    rw [(splitFirst_eq_none_iff '.' s.data).mpr hnd]
  · intro hd
    obtain ⟨a, b, hab⟩ := splitFirst_isSome_of_mem '.' s.data hd
    obtain ⟨heq, hna⟩ := splitFirst_some '.' s.data a b hab
    refine ⟨String.mk a, String.mk b, ?_, heq, hna⟩
    unfold pySplitOnce
    rw [hab]

/-- Witness for C3 at the concrete multi-dot example request. -/
theorem C3_witness :
    (('.' ∉ "a.b.c".data) →
      async_call exampleAD exampleAS (DispatchBehavior.mk 0 EnqueueResult.ok)
        exampleMultiDotArgs = (Except.ok (CallResult.error (invalidFormatMsg "a.b.c")), []))
    ∧ ('.' ∈ "a.b.c".data →
      ∃ d rest, pySplitOnce "a.b.c" = some (d, rest) ∧
        d.data ++ '.' :: rest.data = "a.b.c".data ∧ '.' ∉ d.data) :=
  C3_format_check exampleAD exampleAS (DispatchBehavior.mk 0 EnqueueResult.ok)
    exampleMultiDotArgs "a.b.c" (JValue.str "light.lamp") rfl rfl (by decide) (by decide)

/-- C4: for a well-formed `service` whose domain part is allowed but whose
full string is not in the allowed services, the handler returns the
service-not-allowed error; whenever the domain part is not allowed it
returns the (distinct) domain-not-allowed error, so the domain check comes
first and is necessary but not sufficient. -/
theorem C4_full_service_check (AD AS : List String) (bus : DispatchBehavior)
    (args : List (String × JValue)) (s d rest : String) (tv : JValue)
    (hs : dictGet "service" args = some (JValue.str s))
    (ht : dictGet "target_device" args = some tv)
    (hns : s ≠ "") (htv : tv.truthy = true)
    (hsplit : pySplitOnce s = some (d, rest)) :
    (d ∈ AD → s ∉ AS →
      async_call AD AS bus args = (Except.ok (CallResult.error (serviceNotAllowedMsg s)), []))
    ∧ (d ∉ AD →
      async_call AD AS bus args = (Except.ok (CallResult.error (domainNotAllowedMsg d)), []))
    ∧ serviceNotAllowedMsg s ≠ domainNotAllowedMsg d := by
  refine ⟨?_, ?_, serviceMsg_ne_domainMsg s d⟩
  · intro hd hsv
    exact async_call_service_denied AD AS bus args s d rest tv hs ht hns htv hsplit hd hsv
  · intro hd
    exact async_call_domain_denied AD AS bus args s d rest tv hs ht hns htv hsplit hd

/-- Witness for C4 at a concrete request whose domain is allowed but whose
full service string is not. -/
theorem C4_witness :
    ("light" ∈ exampleAD → "light.turn_on" ∉ ["light.turn_off"] →
      async_call exampleAD ["light.turn_off"] (DispatchBehavior.mk 0 EnqueueResult.ok)
        exampleArgs =
        (Except.ok (CallResult.error (serviceNotAllowedMsg "light.turn_on")), []))
    ∧ ("light" ∉ exampleAD →
      async_call exampleAD ["light.turn_off"] (DispatchBehavior.mk 0 EnqueueResult.ok)
        exampleArgs =
        (Except.ok (CallResult.error (domainNotAllowedMsg "light")), []))
    ∧ serviceNotAllowedMsg "light.turn_on" ≠ domainNotAllowedMsg "light" :=
  C4_full_service_check exampleAD ["light.turn_off"] (DispatchBehavior.mk 0 EnqueueResult.ok)
    exampleArgs "light.turn_on" "light" "turn_on" (JValue.str "light.lamp")
    rfl rfl (by decide) (by decide) rfl

/-- C5: for a request passing all checks, the dispatched payload is the
entity-id binding followed by exactly the whitelist-filtered caller
arguments with values verbatim, and the non-whitelisted keys are dropped
without producing an error result. -/
theorem C5_argument_projection (AD AS : List String) (bus : DispatchBehavior)
    (args : List (String × JValue)) (s d rest : String) (tv : JValue)
    (hs : dictGet "service" args = some (JValue.str s))
    (ht : dictGet "target_device" args = some tv)
    (hns : s ≠ "") (htv : tv.truthy = true)
    (hsplit : pySplitOnce s = some (d, rest))
    (hd : d ∈ AD) (hsv : s ∈ AS)
    (hnodup : (args.map Prod.fst).Nodup) :
    (async_call AD AS bus args).2 =
      [DispatchCall.mk d rest
        ((ATTR_ENTITY_ID, tv) ::
          args.filter (fun p => decide (p.1 ∈ ALLOWED_SERVICE_CALL_ARGUMENTS))) false]
    ∧ (bus.duration ≤ 5 → bus.result = EnqueueResult.ok →
      (async_call AD AS bus args).1 =
        Except.ok (CallResult.success s tv (successMsg s (pyStr tv)))) := by
  have hv := async_call_valid AD AS bus args s d rest tv hs ht hns htv hsplit hd hsv
  have hbuild : buildServiceData args tv =
      (ATTR_ENTITY_ID, tv) ::
        args.filter (fun p => decide (p.1 ∈ ALLOWED_SERVICE_CALL_ARGUMENTS)) := by
    unfold buildServiceData
    rw [applyArgs_eq_append_filter args [(ATTR_ENTITY_ID, tv)] hnodup ?side]
    · simp
    case side =>
      intro p hp hpl
      simp only [List.map_cons, List.map_nil, List.mem_singleton]
      intro he
      rw [he] at hpl
      exact absurd hpl (by decide)
  constructor
  · rw [hv, dispatchStage_snd, hbuild]
  · intro hdur hok
    rw [hv]
    unfold dispatchStage
    rw [if_neg (Nat.not_lt.mpr hdur), hok]

/-- Witness for C5 at the spec's section-8 example: `brightness` is kept,
`unknown_key` is dropped, and the call succeeds. -/
theorem C5_witness :
    ((async_call exampleAD exampleAS (DispatchBehavior.mk 0 EnqueueResult.ok) exampleArgs).2 =
      [DispatchCall.mk "light" "turn_on"
        ((ATTR_ENTITY_ID, JValue.str "light.lamp") ::
          exampleArgs.filter (fun p => decide (p.1 ∈ ALLOWED_SERVICE_CALL_ARGUMENTS))) false]
    ∧ ((DispatchBehavior.mk 0 EnqueueResult.ok).duration ≤ 5 →
      (DispatchBehavior.mk 0 EnqueueResult.ok).result = EnqueueResult.ok →
      (async_call exampleAD exampleAS (DispatchBehavior.mk 0 EnqueueResult.ok) exampleArgs).1 =
        Except.ok (CallResult.success "light.turn_on" (JValue.str "light.lamp")
          (successMsg "light.turn_on" (pyStr (JValue.str "light.lamp")))))) :=
  C5_argument_projection exampleAD exampleAS (DispatchBehavior.mk 0 EnqueueResult.ok)
    exampleArgs "light.turn_on" "light" "turn_on" (JValue.str "light.lamp")
    rfl rfl (by decide) (by decide) rfl (by decide) (by decide) (by decide)

/-- C6 counterexample: on the concrete successful call, the message field
is "✅ Successfully called light.turn_on on light.lamp", not the claimed
"successfully called light.turn_on on light.lamp". -/
theorem C6_counterexample :
    (async_call exampleAD exampleAS (DispatchBehavior.mk 0 EnqueueResult.ok) exampleArgs).1 =
      Except.ok (CallResult.success "light.turn_on" (JValue.str "light.lamp")
        "✅ Successfully called light.turn_on on light.lamp")
    ∧ "✅ Successfully called light.turn_on on light.lamp" ≠
        "successfully called light.turn_on on light.lamp" :=
  ⟨rfl, by decide⟩

/-- C6 (amended): when the dispatch enqueue completes within the bound with
no exception, the result is a success whose `service` and `target` fields
echo the inputs exactly and whose message is
"✅ Successfully called <service> on <target_device>". -/
theorem C6_success_echo (AD AS : List String) (bus : DispatchBehavior)
    (args : List (String × JValue)) (s d rest : String) (tv : JValue)
    (hs : dictGet "service" args = some (JValue.str s))
    (ht : dictGet "target_device" args = some tv)
    (hns : s ≠ "") (htv : tv.truthy = true)
    (hsplit : pySplitOnce s = some (d, rest))
    (hd : d ∈ AD) (hsv : s ∈ AS)
    (hdur : bus.duration ≤ 5) (hok : bus.result = EnqueueResult.ok) :
    (async_call AD AS bus args).1 =
      Except.ok (CallResult.success s tv (successMsg s (pyStr tv))) := by
  rw [async_call_valid AD AS bus args s d rest tv hs ht hns htv hsplit hd hsv]
  unfold dispatchStage
  rw [if_neg (Nat.not_lt.mpr hdur), hok]

/-- Witness for the amended C6 at the concrete example request. -/
theorem C6_witness :
    (async_call exampleAD exampleAS (DispatchBehavior.mk 0 EnqueueResult.ok) exampleArgs).1 =
      Except.ok (CallResult.success "light.turn_on" (JValue.str "light.lamp")
        (successMsg "light.turn_on" (pyStr (JValue.str "light.lamp")))) :=
  C6_success_echo exampleAD exampleAS (DispatchBehavior.mk 0 EnqueueResult.ok)
    exampleArgs "light.turn_on" "light" "turn_on" (JValue.str "light.lamp")
    rfl rfl (by decide) (by decide) rfl (by decide) (by decide) (by decide) rfl

/-- C7 counterexample: the timeout message is "Timeout calling service
light.turn_on (took more than 5 seconds)", which does not contain the
lowercase "timeout", and the generic failure message is "Error calling
service light.turn_on: boom", which is not of the form
"error calling service: <details>". -/
theorem C7_counterexample :
    ((async_call exampleAD exampleAS (DispatchBehavior.mk 6 EnqueueResult.ok) exampleArgs).1 =
      Except.ok (CallResult.error
        "Timeout calling service light.turn_on (took more than 5 seconds)")
    ∧ strOccursIn "timeout"
        "Timeout calling service light.turn_on (took more than 5 seconds)" = false)
    ∧ ((async_call exampleAD exampleAS (DispatchBehavior.mk 0 (EnqueueResult.raise "boom"))
        exampleArgs).1 =
      Except.ok (CallResult.error "Error calling service light.turn_on: boom")
    ∧ leadsWith "error calling service: ".data
        "Error calling service light.turn_on: boom".data = false
    ∧ "Error calling service light.turn_on: boom" ≠ "error calling service: boom") :=
  ⟨⟨rfl, by decide⟩, rfl, by decide, by decide⟩

/-- C7 (amended): for a validated request, an enqueue exceeding the 5-unit
bound yields an error result whose message is "Timeout calling service
<service> (took more than 5 seconds)" (containing "Timeout"), and any
other enqueue exception yields an error result "Error calling service
<service>: <details>" that includes the low-level message. -/
theorem C7_dispatch_failure_results (AD AS : List String) (bus : DispatchBehavior)
    (args : List (String × JValue)) (s d rest : String) (tv : JValue)
    (hs : dictGet "service" args = some (JValue.str s))
    (ht : dictGet "target_device" args = some tv)
    (hns : s ≠ "") (htv : tv.truthy = true)
    (hsplit : pySplitOnce s = some (d, rest))
    (hd : d ∈ AD) (hsv : s ∈ AS) :
    (bus.duration > 5 →
      (async_call AD AS bus args).1 = Except.ok (CallResult.error (timeoutMsg s)) ∧
      strOccursIn "Timeout" (timeoutMsg s) = true)
    ∧ (∀ m, bus.duration ≤ 5 → bus.result = EnqueueResult.raise m →
      (async_call AD AS bus args).1 = Except.ok (CallResult.error (dispatchErrorMsg s m)) ∧
      strOccursIn m (dispatchErrorMsg s m) = true) := by
  have hv := async_call_valid AD AS bus args s d rest tv hs ht hns htv hsplit hd hsv
  constructor
  · intro hgt
    constructor
    · rw [hv]; unfold dispatchStage; rw [if_pos hgt]
    · simp only [strOccursIn, timeoutMsg, String.data_append]
      exact occursIn_leadsWith_append _ _ _ (by decide) (by decide)
  · intro m hle hraise
    constructor
    · rw [hv]; unfold dispatchStage; rw [if_neg (Nat.not_lt.mpr hle), hraise]
    · simp only [strOccursIn, dispatchErrorMsg, String.data_append]
      have hassoc : "Error calling service ".data ++ (s.data ++ (": ".data ++ m.data)) =
          ("Error calling service ".data ++ s.data ++ ": ".data) ++ m.data := by
        simp [List.append_assoc]
      rw [hassoc]
      exact occursIn_append_right _ _

/-- Witness for the amended C7 at the concrete example request. -/
theorem C7_witness :
    (((DispatchBehavior.mk 6 EnqueueResult.ok).duration > 5 →
      (async_call exampleAD exampleAS (DispatchBehavior.mk 6 EnqueueResult.ok) exampleArgs).1 =
        Except.ok (CallResult.error (timeoutMsg "light.turn_on")) ∧
      strOccursIn "Timeout" (timeoutMsg "light.turn_on") = true)
    ∧ (∀ m, (DispatchBehavior.mk 6 EnqueueResult.ok).duration ≤ 5 →
      (DispatchBehavior.mk 6 EnqueueResult.ok).result = EnqueueResult.raise m →
      (async_call exampleAD exampleAS (DispatchBehavior.mk 6 EnqueueResult.ok) exampleArgs).1 =
        Except.ok (CallResult.error (dispatchErrorMsg "light.turn_on" m)) ∧
      strOccursIn m (dispatchErrorMsg "light.turn_on" m) = true)) :=
  C7_dispatch_failure_results exampleAD exampleAS (DispatchBehavior.mk 6 EnqueueResult.ok)
    exampleArgs "light.turn_on" "light" "turn_on" (JValue.str "light.lamp")
    rfl rfl (by decide) (by decide) rfl (by decide) (by decide)

/-- C8: every call the handler issues on the host dispatch bus passes
`blocking=False`. -/
theorem C8_always_nonblocking (AD AS : List String) (bus : DispatchBehavior)
    (args : List (String × JValue)) (c : DispatchCall)
    (h : c ∈ (async_call AD AS bus args).2) :
    c.blocking = false := by
  rcases async_call_shape AD AS bus args with ⟨msg, he⟩ |
    ⟨s, d, rest, tv, h1, h2, h3, h4, h5, he⟩ | ⟨v, h1, h2, he⟩
  · rw [he] at h; simp at h
  · rw [he, dispatchStage_snd] at h
    simp only [List.mem_singleton] at h
    rw [h]
  · rw [he] at h; simp at h

/-- Witness for C8 at the concrete example request. -/
theorem C8_witness :
    (DispatchCall.mk "light" "turn_on"
        [("entity_id", JValue.str "light.lamp"), ("brightness", JValue.int 120)] false).blocking
      = false := by
  apply C8_always_nonblocking exampleAD exampleAS
    (DispatchBehavior.mk 0 EnqueueResult.ok) exampleArgs
  decide

/-- C9: registration is idempotent. For every host registry state (whose
identifiers are unique, the invariant the host registry maintains),
running the setup registration step twice under the same fixed API
identifier leaves exactly one entry for that identifier, and the second
run is a no-op. -/
theorem C9_registration_idempotent (api_id : String) (registry : List String)
    (h : registry.count api_id ≤ 1) :
    (register_step api_id (register_step api_id registry)).count api_id = 1
    ∧ register_step api_id (register_step api_id registry) = register_step api_id registry := by
  by_cases hm : api_id ∈ registry
  · have h1 : register_step api_id registry = registry := by simp [register_step, hm]
    rw [h1, h1]
    exact ⟨le_antisymm h (List.one_le_count_iff.mpr hm), rfl⟩
  · have h1 : register_step api_id registry = registry ++ [api_id] := by
      simp [register_step, hm]
    have hm2 : api_id ∈ registry ++ [api_id] := by simp
    have h2 : register_step api_id (registry ++ [api_id]) = registry ++ [api_id] := by
      simp [register_step, hm2]
    rw [h1, h2]
    refine ⟨?_, rfl⟩
    rw [List.count_append, List.count_eq_zero.mpr hm]
    simp

/-- Witness for C9 starting from the empty host registry. -/
theorem C9_witness :
    (register_step "bedrock_services" (register_step "bedrock_services" [])).count
        "bedrock_services" = 1
    ∧ register_step "bedrock_services" (register_step "bedrock_services" []) =
        register_step "bedrock_services" [] :=
  C9_registration_idempotent "bedrock_services" [] (by decide)

/-- C10: every payload reaching the dispatch bus maps the entity-id key to
exactly the input `target_device`; no caller-supplied argument can
override it, since neither the entity-id key nor "service" nor
"target_device" is in the argument whitelist. -/
theorem C10_entity_id_not_overridable (AD AS : List String) (bus : DispatchBehavior)
    (args : List (String × JValue)) (c : DispatchCall)
    (h : c ∈ (async_call AD AS bus args).2) :
    (∃ tv, dictGet "target_device" args = some tv ∧ dictGet ATTR_ENTITY_ID c.data = some tv)
    ∧ ATTR_ENTITY_ID ∉ ALLOWED_SERVICE_CALL_ARGUMENTS
    ∧ "service" ∉ ALLOWED_SERVICE_CALL_ARGUMENTS
    ∧ "target_device" ∉ ALLOWED_SERVICE_CALL_ARGUMENTS := by
  refine ⟨?_, by decide, by decide, by decide⟩
  rcases async_call_shape AD AS bus args with ⟨msg, he⟩ |
    ⟨s, d, rest, tv, h1, h2, h3, h4, h5, he⟩ | ⟨v, h1, h2, he⟩
  · rw [he] at h; simp at h
  · rw [he, dispatchStage_snd] at h
    simp only [List.mem_singleton] at h
    subst h
    refine ⟨tv, h2, ?_⟩
    show dictGet ATTR_ENTITY_ID (buildServiceData args tv) = some tv
    unfold buildServiceData
    rw [applyArgs_dictGet ATTR_ENTITY_ID (by decide) args [(ATTR_ENTITY_ID, tv)]]
    simp [dictGet, List.find?]
  · rw [he] at h; simp at h

/-- Witness for C10 at the concrete example request. -/
theorem C10_witness :
    (∃ tv, dictGet "target_device" exampleArgs = some tv ∧
      dictGet ATTR_ENTITY_ID
        (DispatchCall.mk "light" "turn_on"
          [("entity_id", JValue.str "light.lamp"), ("brightness", JValue.int 120)] false).data
        = some tv)
    ∧ ATTR_ENTITY_ID ∉ ALLOWED_SERVICE_CALL_ARGUMENTS
    ∧ "service" ∉ ALLOWED_SERVICE_CALL_ARGUMENTS
    ∧ "target_device" ∉ ALLOWED_SERVICE_CALL_ARGUMENTS := by
  apply C10_entity_id_not_overridable exampleAD exampleAS
    (DispatchBehavior.mk 0 EnqueueResult.ok) exampleArgs
  decide

end Bedrock
